import Mathlib

/-!
Shallow embedding of the data-fetch-and-normalize layer of
`src/Drug-Safety-Dashboard.py` (the Adverse-Event Query Service).

Modelling conventions:
* Python strings are Lean `String`; the data handled by this program is
  ASCII, and `str.lower` / `str.upper` / `str.title` are embedded as the
  corresponding ASCII transformations.
* A JSON aggregate row (`{term, count}`) is `AggRow` with optional fields:
  `none` models an absent key (a pandas `NaN` cell once in a DataFrame).
* A raw event record is `EventRecord`; its `receivedate` value is a `Jval`
  (string, integer, or other JSON value), since `get_timeline` must cope
  with non-string dates.
* The HTTP layer (`SESSION.get` with `urllib3.Retry`) is embedded as a
  function `Nat → Attempt α` giving the outcome of each successive request
  attempt; `sessionGet` applies the retry policy (`total=4`,
  `status_forcelist=[500,502,503,504]`, `raise_on_status=False`) and
  `callStep` is the body of `_call`.  A `Body.malformed` models a 200
  response whose body fails JSON decoding; `requests`' `JSONDecodeError`
  is a `RequestException`, so `_call` catches it and reports
  `network_error`.  (A syntactically valid non-object JSON body is outside
  the model: the upstream endpoint always returns an object.)
* The query operations are embedded as functions of the pair
  `(data, err)` produced by `_call`, i.e. the network is passed in as its
  result.  `get_reactions` returns `Except String …` because its pandas
  pipeline can raise: `df["Reaction"]` raises `KeyError` when the `term`
  column does not exist, which happens exactly when `data` is non-empty
  and no row carries a `term` key.  Every exception source inside
  `get_timeline`'s loop is caught by its `except (ValueError, TypeError)`,
  and `get_geo` only uses defaulting `.get` calls, so both are total.
-/

deriving instance DecidableEq for Except

/-- ASCII embedding of Python `str.lower`. -/
def pyLower (s : String) : String := String.mk (s.toList.map Char.toLower)

/-- ASCII embedding of Python `str.upper` (used on country codes and terms). -/
def pyUpper (s : String) : String := String.mk (s.toList.map Char.toUpper)

/-- Worker for `pyTitle`: the Boolean says whether the previous character was
cased (alphabetic). A cased character after an uncased one is uppercased,
a cased character after a cased one is lowercased; uncased characters pass
through. -/
def pyTitleGo : Bool → List Char → List Char
  | _, [] => []
  | prev, c :: cs =>
    (if c.isAlpha then (if prev then c.toLower else c.toUpper) else c) ::
      pyTitleGo c.isAlpha cs

/-- ASCII embedding of Python `str.title` (pandas `.str.title()`). -/
def pyTitle (s : String) : String := String.mk (pyTitleGo false s.toList)

/-- Digits (with Python's between-digit underscores) after the first digit. -/
def pyDigitsGo (acc : Nat) : List Char → Option Nat
  | [] => some acc
  | '_' :: c :: cs =>
    if c.isDigit then pyDigitsGo (acc * 10 + (c.toNat - 48)) cs else none
  | c :: cs =>
    if c.isDigit then pyDigitsGo (acc * 10 + (c.toNat - 48)) cs else none

/-- A non-empty all-digit (underscore-separated) sequence, as in Python `int`. -/
def pyDigits : List Char → Option Nat
  | [] => none
  | c :: cs => if c.isDigit then pyDigitsGo (c.toNat - 48) cs else none

/-- Embedding of Python `int(s)` on ASCII input: strip surrounding whitespace,
allow one optional sign, then digits; anything else raises `ValueError`
(modelled as `none`). -/
def pyIntParse (s : String) : Option Int :=
  match (((s.toList.dropWhile Char.isWhitespace).reverse.dropWhile
      Char.isWhitespace).reverse : List Char) with
  | '-' :: cs => (pyDigits cs).map (fun n => -(n : Int))
  | '+' :: cs => (pyDigits cs).map (fun n => (n : Int))
  | cs => (pyDigits cs).map (fun n => (n : Int))

/-- The fixed exclusion set of administrative/process terms (source constant
`NON_SIDE_EFFECTS`). -/
def NON_SIDE_EFFECTS : List String :=
  ["drug ineffective", "off label use", "product use in unapproved indication",
   "inappropriate schedule of product administration",
   "wrong technique in product usage process",
   "drug administered to patient of inappropriate age",
   "drug dose omission", "expired product administered",
   "product quality issue", "intentional product misuse",
   "drug dispensing error", "drug interaction", "no adverse event",
   "product substitution issue", "drug administration error",
   "incorrect dose administered", "patient did not respond to treatment",
   "condition aggravated", "therapeutic response unexpected",
   "drug use for unknown indication"]

/-- The fixed ISO2 → (latitude, longitude) table (source constant
`ISO2_COORDS`).  Coordinates are exact decimals with two fractional digits in
the source; they are stored here in hundredths of a degree (fixed point,
scaled by 100) so that every table value is an integer. -/
def ISO2_COORDS : List (String × Int × Int) :=
  [("US", (3709, -9571)), ("GB", (5537, -343)), ("CA", (5613, -10634)),
   ("FR", (4622, 221)), ("DE", (5116, 1045)), ("IT", (4187, 1256)),
   ("ES", (4046, -374)), ("JP", (3620, 13825)), ("CN", (3586, 10419)),
   ("IN", (2059, 7896)), ("BR", (-1423, -5192)), ("AU", (-2527, 13377)),
   ("RU", (6152, 10531)), ("ZA", (-3055, 2293)), ("MX", (2363, -10255)),
   ("KR", (3590, 12776)), ("NL", (5213, 529)), ("SE", (6012, 1864)),
   ("CH", (4681, 822)), ("TR", (3896, 3524)), ("BE", (5050, 446)),
   ("AR", (-3841, -6361)), ("PL", (5191, 1914)), ("TH", (1587, 10099)),
   ("PT", (3939, -822)), ("AT", (4751, 1455)), ("DK", (5626, 950)),
   ("NO", (6047, 846)), ("FI", (6192, 2574)), ("NZ", (-4090, 17488)),
   ("IL", (3104, 3485)), ("SG", (135, 10381)), ("IE", (5341, -824)),
   ("GR", (3907, 2182)), ("HU", (4716, 1950)), ("CZ", (4981, 1547)),
   ("RO", (4594, 2496)), ("SA", (2388, 4507)), ("MY", (421, 10197)),
   ("PH", (1287, 12177)), ("NG", (908, 867)), ("EG", (2682, 3080)),
   ("UA", (4837, 3116))]

/-- The fixed ISO2 → display-name table (source constant `ISO2_TO_NAME`). -/
def ISO2_TO_NAME : List (String × String) :=
  [("US", "United States"), ("GB", "United Kingdom"), ("CA", "Canada"),
   ("FR", "France"), ("DE", "Germany"), ("JP", "Japan"), ("AU", "Australia"),
   ("IT", "Italy"), ("ES", "Spain"), ("NL", "Netherlands"), ("SE", "Sweden"),
   ("CH", "Switzerland"), ("BE", "Belgium"), ("CN", "China"), ("IN", "India"),
   ("BR", "Brazil"), ("RU", "Russia"), ("MX", "Mexico"), ("KR", "South Korea"),
   ("TR", "Turkey"), ("AR", "Argentina"), ("PL", "Poland"),
   ("SG", "Singapore"), ("IE", "Ireland"), ("GR", "Greece"), ("HU", "Hungary")]

/-- The body of an HTTP response as `_call` sees it: either a JSON object whose
`results` key holds a list (an object without the key behaves as `json []`
via `.get("results", [])`), or a body on which `r.json()` raises
`JSONDecodeError` (a `RequestException`). -/
inductive Body (α : Type) where
  | json (results : List α)
  | malformed (detail : String)
deriving DecidableEq

/-- The outcome of one request attempt: an HTTP response with a status code and
body, or a transport-level failure (`requests.RequestException`). -/
inductive Attempt (α : Type) where
  | resp (status : Nat) (body : Body α)
  | netfail (detail : String)
deriving DecidableEq

/-- `status_forcelist` of the `urllib3.Retry` configured in `_session`. -/
def STATUS_FORCELIST : List Nat := [500, 502, 503, 504]

/-- Whether the retry policy retries after this attempt: always on transport
failure, and on a response whose status is in the forcelist. -/
def retryable : Attempt α → Bool
  | .resp s _ => STATUS_FORCELIST.contains s
  | .netfail _ => true

/-- Retry loop of the mounted adapter: `fuel` is the remaining retry budget,
`i` the index of the current attempt.  With `raise_on_status=False` the last
response is returned once the budget is exhausted; an exhausted budget on a
transport failure surfaces as the failure itself (requests raises
`ConnectionError`, which `_call` catches). -/
def sessionGo (env : Nat → Attempt α) : Nat → Nat → Attempt α
  | 0, i => env i
  | n + 1, i => if retryable (env i) then sessionGo env n (i + 1) else env i

/-- `SESSION.get`: first attempt plus up to `total=4` retries. -/
def sessionGet (env : Nat → Attempt α) : Attempt α := sessionGo env 4 0

/-- The `if`/`elif`/`else` chain of `_call` on `r.status_code`: 200 → parsed
results (or caught `JSONDecodeError` → `network_error`), 404 → `no_data`,
anything else → `server_error_<code>`. -/
def respResult (status : Nat) (body : Body α) : List α × Option String :=
  if status == 200 then
    match body with
    | .json rs => (rs, none)
    | .malformed d => ([], some ("network_error: " ++ d))
  else if status == 404 then ([], some "no_data")
  else ([], some ("server_error_" ++ toString status))

/-- The body of `_call` on the final attempt: a transport exception →
`network_error`, a response → the status dispatch. -/
def callStep : Attempt α → List α × Option String
  | .netfail d => ([], some ("network_error: " ++ d))
  | .resp status body => respResult status body

/-- `_call`: issue the request through the retrying session and map the final
outcome to the `(results, error)` pair. -/
def _call (env : Nat → Attempt α) : List α × Option String :=
  callStep (sessionGet env)

/-- A JSON aggregate row `{term, count}`; `none` models an absent key. -/
structure AggRow where
  term  : Option String
  count : Option Int
deriving DecidableEq

/-- A row of the DataFrame built by `get_reactions`: the `Reaction` cell
(`none` = `NaN`, from a row with no `term` key) and the `Reports` cell. -/
structure ReactionRow where
  name    : Option String
  reports : Option Int
deriving DecidableEq

/-- One DataFrame row of `get_reactions` before filtering: the `term` value
title-cased (pandas `.str.title()` leaves `NaN` as `NaN`), the count kept. -/
def mkReactionRow (r : AggRow) : ReactionRow :=
  { name := r.term.map pyTitle, reports := r.count }

/-- The mask `~df["Reaction"].str.lower().isin(NON_SIDE_EFFECTS)`: a `NaN`
name is not `isin` the set, so the row is kept. -/
def reactionKeep (row : ReactionRow) : Bool :=
  match row.name with
  | some nm => !(decide (pyLower nm ∈ NON_SIDE_EFFECTS))
  | none => true

/-- The rows surviving the exclusion filter, in API order. -/
def reactionSurvivors (data : List AggRow) : List ReactionRow :=
  (data.map mkReactionRow).filter reactionKeep

/-- `get_reactions` on the `(data, err)` pair returned by `_call`.  Mirrors the
source line by line: empty-or-error short-circuit returning `err` as-is;
then the pandas pipeline, which raises `KeyError` iff the non-empty data has
no `term` key in any row (the renamed `Reaction` column does not exist);
otherwise title-case, filter by the exclusion mask, `head(8)`. -/
def get_reactions (data : List AggRow) (err : Option String) :
    Except String (List ReactionRow × Option String) :=
  if err.isSome || data.isEmpty then .ok ([], err)
  else if data.all (fun r => r.term.isNone) then .error "KeyError: Reaction"
  else .ok ((reactionSurvivors data).take 8, none)

/-- A JSON value in a raw event record, as far as `get_timeline` needs it. -/
inductive Jval where
  | str (s : String)
  | int (n : Int)
  | other
deriving DecidableEq

/-- A raw event record; only `receivedate` is consulted (`none` = key absent,
in which case `record.get("receivedate", "")` yields `""`). -/
structure EventRecord where
  receivedate : Option Jval
deriving DecidableEq

/-- The year-range acceptance test of `get_timeline`'s loop: keep `y` when
`2000 <= y <= cy`, where `cy` is `datetime.now().year`. -/
def yearFilter (cy y : Int) : Option Int :=
  if 2000 ≤ y && y ≤ cy then some y else none

/-- The year a record contributes to the timeline, if any: the guarded body of
`get_timeline`'s loop (`len(raw_date) == 8`, `int(raw_date[:4])`, range
check), with `none` for every silently-skipped record. -/
def survYear (cy : Int) (r : EventRecord) : Option Int :=
  match r.receivedate with
  | some (.str s) =>
    if s.length == 8 then (pyIntParse (s.take 4)).bind (yearFilter cy)
    else none
  | _ => none

/-- Sorted list of distinct values: `pd.Series(rows).value_counts().sort_index()`
index. -/
def sortedDedup (ys : List Int) : List Int :=
  (List.insertionSort (· ≤ ·) ys).dedup

/-- `pd.Series(rows).value_counts().sort_index()` over the surviving years
`ys`, plus the `no_data` check on an empty `rows` list: one `(year, count)`
row per distinct year, ascending. -/
def timelineRows (ys : List Int) : List (Int × Nat) × Option String :=
  if ys.isEmpty then ([], some "no_data")
  else ((sortedDedup ys).map (fun y => (y, ys.count y)), none)

/-- `get_timeline` on the `(data, err)` pair returned by `_call`: bucket the
surviving records by year, `no_data` when none survive, else the
`(year, count)` rows sorted ascending by year. -/
def get_timeline (cy : Int) (data : List EventRecord) (err : Option String) :
    List (Int × Nat) × Option String :=
  if err.isSome || data.isEmpty then ([], err)
  else timelineRows (data.filterMap (survYear cy))

/-- A `CountryCount` row assembled by `get_geo`. -/
structure GeoRow where
  country : String
  name    : String
  reports : Int
  lat     : Int
  lon     : Int
deriving DecidableEq

/-- Lookup in a static table keyed by string (Python `dict.get(key)`,
returning `None` when the key is absent). -/
def tableGet (tbl : List (String × β)) (k : String) : Option β :=
  match tbl with
  | [] => none
  | (k2, v) :: rest => if k = k2 then some v else tableGet rest k

/-- The per-item body of `get_geo`'s loop: uppercase the code
(`item.get("term", "").upper()`), drop the row when `ISO2_COORDS` has no
entry, else build the row with the table's coordinates and the display name
from `ISO2_TO_NAME` falling back to the code. -/
def mkGeoRow (iso2 : String) (cnt : Int) : Option GeoRow :=
  match tableGet ISO2_COORDS iso2 with
  | some (la, lo) =>
    some { country := iso2, name := (tableGet ISO2_TO_NAME iso2).getD iso2,
           reports := cnt, lat := la, lon := lo }
  | none => none

def geoRow (r : AggRow) : Option GeoRow :=
  mkGeoRow (pyUpper (r.term.getD "")) (r.count.getD 0)

/-- `get_geo` on the `(data, err)` pair returned by `_call`. -/
def get_geo (data : List AggRow) (err : Option String) :
    List GeoRow × Option String :=
  if err.isSome || data.isEmpty then ([], err)
  else if (data.filterMap geoRow).isEmpty then ([], some "no_data")
  else (data.filterMap geoRow, none)

/-- Modelled from the spec: the missing piece is streamlit's
`st.cache_data(ttl=600)` decorator wrapping each query (its implementation is
not part of this repository).  Per key, the cache holds the previously
computed value with its storage time; within `ttl` seconds it is returned
verbatim, after that the value is recomputed. -/
structure TtlCache (α : Type) where
  stored : Option (Nat × α)
deriving DecidableEq

/-- Modelled from the spec: cache lookup at wall-clock time `now` — a stored
value is a hit while `now < storedAt + ttl`. -/
def cacheLookup (ttl now : Nat) (c : TtlCache α) : Option α :=
  match c.stored with
  | some (t0, r) => if now < t0 + ttl then some r else none
  | none => none

/-- Modelled from the spec: one call through the cached query.  Returns the
result, the new cache state, and whether a fresh computation (a network
request) happened. -/
def cacheQuery (ttl : Nat) (fetch : Unit → α) (now : Nat) (c : TtlCache α) :
    α × TtlCache α × Bool :=
  match cacheLookup ttl now c with
  | some r => (r, c, false)
  | none =>
    let r := fetch ()
    (r, ⟨some (now, r)⟩, true)

/-! ### Helper lemmas -/

/-- The distinct-years index produced by `sortedDedup` is strictly sorted. -/
theorem sortedDedup_sorted_lt (ys : List Int) :
    (sortedDedup ys).Sorted (· < ·) :=
  List.Sorted.lt_of_le
    ((List.sorted_insertionSort _ ys).sublist (List.dedup_sublist _))
    (List.nodup_dedup _)

/-- Membership in `sortedDedup` is membership in the original list. -/
theorem mem_sortedDedup {ys : List Int} {y : Int} :
    y ∈ sortedDedup ys ↔ y ∈ ys := by
  unfold sortedDedup
  rw [List.mem_dedup, List.mem_insertionSort]

/-- Characterization of `survYear`: a record contributes year `y` exactly when
its `receivedate` is an 8-character string whose first 4 characters parse as
the integer `y` with `2000 ≤ y ≤ cy`. -/
theorem survYear_eq_some_iff (cy y : Int) (r : EventRecord) :
    survYear cy r = some y ↔
      ∃ s : String, r.receivedate = some (.str s) ∧ s.length = 8 ∧
        pyIntParse (s.take 4) = some y ∧ 2000 ≤ y ∧ y ≤ cy := by
  obtain ⟨rd⟩ := r
  cases rd with
  | none => simp [survYear]
  | some j =>
    cases j with
    | str s =>
      simp only [survYear, Option.some.injEq, Jval.str.injEq]
      by_cases hlen : s.length = 8
      · rw [if_pos (by simp [hlen])]
        cases hp : pyIntParse (s.take 4) with
        | none =>
          simp only [Option.none_bind]
          constructor
          · intro h; cases h
          · rintro ⟨s', rfl, -, hp', -, -⟩
            rw [hp] at hp'; cases hp'
        | some z =>
          simp only [Option.some_bind, yearFilter]
          by_cases hz : 2000 ≤ z ∧ z ≤ cy
          · rw [if_pos (by simp [hz.1, hz.2])]
            constructor
            · intro h
              cases h
              exact ⟨s, rfl, hlen, hp, hz.1, hz.2⟩
            · rintro ⟨s', rfl, -, hp', -, -⟩
              rw [hp] at hp'
              exact hp'
          · rw [if_neg (by simp only [Bool.and_eq_true, decide_eq_true_eq]; exact hz)]
            constructor
            · intro h; cases h
            · rintro ⟨s', rfl, -, hp', hy1, hy2⟩
              rw [hp] at hp'
              cases hp'
              exact absurd ⟨hy1, hy2⟩ hz
      · rw [if_neg (by simp [hlen])]
        constructor
        · intro h; cases h
        · rintro ⟨s', rfl, hlen', -, -, -⟩
          exact absurd hlen' hlen
    | int n => simp [survYear]
    | other => simp [survYear]

/-- A year produced by `survYear` lies in the accepted range. -/
theorem survYear_range {cy : Int} {r : EventRecord} {y : Int}
    (h : survYear cy r = some y) : 2000 ≤ y ∧ y ≤ cy := by
  obtain ⟨s, -, -, -, h1, h2⟩ := (survYear_eq_some_iff cy y r).mp h
  exact ⟨h1, h2⟩

/-- The `value_counts().sort_index()` rows have strictly increasing years. -/
theorem timelineRows_pairwise (ys : List Int) :
    (timelineRows ys).1.Pairwise (fun p q => p.1 < q.1) := by
  unfold timelineRows
  split
  · simp
  · rw [List.pairwise_map]
    exact sortedDedup_sorted_lt ys

/-- Every `value_counts().sort_index()` row is a year of `ys` together with its
multiplicity in `ys`. -/
theorem timelineRows_mem {ys : List Int} {p : Int × Nat}
    (hp : p ∈ (timelineRows ys).1) : p.1 ∈ ys ∧ p.2 = ys.count p.1 := by
  unfold timelineRows at hp
  split at hp
  · simp at hp
  · obtain ⟨y, hy, rfl⟩ := List.mem_map.mp hp
    exact ⟨mem_sortedDedup.mp hy, rfl⟩

/-- Unfolding of a successful `geoRow`: the row's code is the uppercased term,
its coordinates come from `ISO2_COORDS`, its name from `ISO2_TO_NAME` with
fallback to the code, and its count is the row's count. -/
theorem geoRow_some_spec {r : AggRow} {row : GeoRow}
    (h : geoRow r = some row) :
    tableGet ISO2_COORDS row.country = some (row.lat, row.lon) ∧
    row.name = (tableGet ISO2_TO_NAME row.country).getD row.country ∧
    row.country = pyUpper (r.term.getD "") ∧
    row.reports = r.count.getD 0 := by
  unfold geoRow mkGeoRow at h
  split at h
  · rename_i la lo hlook
    cases h
    exact ⟨hlook, rfl, rfl, rfl⟩
  · cases h

/-- `geoRow` drops a row exactly when `ISO2_COORDS` has no entry for its
uppercased code. -/
theorem geoRow_none_iff (r : AggRow) :
    geoRow r = none ↔
      tableGet ISO2_COORDS (pyUpper (r.term.getD "")) = none := by
  unfold geoRow mkGeoRow
  split
  · rename_i la lo hlook
    simp [hlook]
  · rename_i hlook
    simp [hlook]

/-- Length of `filterMap` counted by definedness of `f`. -/
theorem length_filterMap_eq_countP (f : α → Option β) :
    ∀ l : List α, (l.filterMap f).length = l.countP (fun a => (f a).isSome)
  | [] => rfl
  | a :: l => by
    rw [List.filterMap_cons, List.countP_cons]
    cases hfa : f a <;>
      simp [hfa, length_filterMap_eq_countP f l]

/-! ### Claim theorems -/

/-- C1: For every drug search term and every API response, the rows returned by
the reaction summary query (`get_reactions`) contain no reaction name whose
lowercase form is a member of the fixed exclusion set `NON_SIDE_EFFECTS`; the
match is case-insensitive (the mask is computed on the lowercased stored
name). -/
theorem C1_reaction_rows_never_contain_excluded_names
    (data : List AggRow) (err : Option String)
    (res : List ReactionRow × Option String)
    (hok : get_reactions data err = .ok res)
    (row : ReactionRow) (hrow : row ∈ res.1)
    (nm : String) (hnm : row.name = some nm) :
    pyLower nm ∉ NON_SIDE_EFFECTS := by
  unfold get_reactions at hok
  split at hok
  · have h := Except.ok.inj hok
    subst h
    simp at hrow
  · split at hok
    · cases hok
    · have h := Except.ok.inj hok
      subst h
      have hmem : row ∈ reactionSurvivors data :=
        (List.take_sublist 8 _).mem hrow
      have hkeep := (List.mem_filter.mp hmem).2
      unfold reactionKeep at hkeep
      rw [hnm] at hkeep
      simpa using hkeep

/-- Witness for C1: a concrete successful response containing an excluded
term; the surviving row's name is not in the exclusion set. -/
theorem C1_reaction_rows_never_contain_excluded_names_witness :
    pyLower "Nausea" ∉ NON_SIDE_EFFECTS :=
  C1_reaction_rows_never_contain_excluded_names
    [⟨some "NAUSEA", some 10⟩, ⟨some "DRUG INEFFECTIVE", some 9⟩] none
    ([⟨some "Nausea", some 10⟩], none) (by decide)
    ⟨some "Nausea", some 10⟩ (by decide) "Nausea" rfl

/-- C2: For every API response, `get_reactions` returns at most 8 rows; the
rows are sorted descending by report count (the code keeps the API's native
descending-by-count order, so this holds for every response that is so
ordered); if fewer than 8 names survive the exclusion filter the result is
exactly the survivors — never padded. -/
theorem C2_reaction_rows_at_most_8_sorted_desc
    (data : List AggRow) (res : List ReactionRow × Option String)
    (hok : get_reactions data none = .ok res)
    (hsorted : data.Pairwise (fun a b => b.count.getD 0 ≤ a.count.getD 0)) :
    res.1.length ≤ 8 ∧
    res.1.Pairwise (fun a b => b.reports.getD 0 ≤ a.reports.getD 0) ∧
    res.1.length = min 8 (reactionSurvivors data).length ∧
    ((reactionSurvivors data).length < 8 → res.1 = reactionSurvivors data) := by
  have hsurv : (reactionSurvivors data).Pairwise
      (fun a b => b.reports.getD 0 ≤ a.reports.getD 0) := by
    unfold reactionSurvivors
    refine List.Pairwise.sublist (List.filter_sublist _) ?_
    rw [List.pairwise_map]
    exact hsorted
  unfold get_reactions at hok
  split at hok
  · have h := Except.ok.inj hok
    subst h
    rename_i hcond
    have hdata : data = [] := by simpa using hcond
    subst hdata
    simp [reactionSurvivors]
  · split at hok
    · cases hok
    · have h := Except.ok.inj hok
      subst h
      refine ⟨?_, ?_, ?_, ?_⟩
      · rw [List.length_take]
        exact Nat.min_le_left 8 _
      · exact hsurv.sublist (List.take_sublist 8 _)
      · exact List.length_take 8 _
      · intro hlt
        exact List.take_of_length_le (Nat.le_of_lt hlt)

/-- Witness for C2: two surviving rows in descending order pass through. -/
theorem C2_reaction_rows_at_most_8_sorted_desc_witness :
    ([⟨some "Nausea", some 10⟩, ⟨some "Headache", some 4⟩] :
        List ReactionRow).length ≤ 8 ∧
    ([⟨some "Nausea", some 10⟩, ⟨some "Headache", some 4⟩] :
        List ReactionRow).Pairwise
      (fun a b => b.reports.getD 0 ≤ a.reports.getD 0) :=
  have h := C2_reaction_rows_at_most_8_sorted_desc
    [⟨some "NAUSEA", some 10⟩, ⟨some "HEADACHE", some 4⟩]
    ([⟨some "Nausea", some 10⟩, ⟨some "Headache", some 4⟩], none)
    (by decide) (by decide)
  ⟨h.1, h.2.1⟩

/-- C3 counterexample: a successful upstream call (no error) whose only row is
removed by the exclusion filter makes `get_reactions` return an empty row set
with NO error code — not the claimed `"no_data"`. -/
theorem C3_counterexample_reactions_empty_filter_returns_none :
    get_reactions [⟨some "DRUG INEFFECTIVE", some 9⟩] none = .ok ([], none) ∧
    (none : Option String) ≠ some "no_data" :=
  ⟨by decide, by decide⟩

/-- C3 amended: `get_timeline` and `get_geo` do return `"no_data"` with an
empty row set when the upstream call succeeds with records but
filtering/normalization leaves zero rows; `get_reactions`, however, returns an
empty row set with error `none` in that situation (its error output is always
`none` whenever the upstream error is `none`). -/
theorem C3_amended_no_data_on_empty_filter :
    (∀ (cy : Int) (data : List EventRecord), data ≠ [] →
        data.filterMap (survYear cy) = [] →
        get_timeline cy data none = ([], some "no_data")) ∧
    (∀ data : List AggRow, data ≠ [] →
        data.filterMap geoRow = [] →
        get_geo data none = ([], some "no_data")) ∧
    (∀ (data : List AggRow) (res : List ReactionRow × Option String),
        get_reactions data none = .ok res → res.2 = none) := by
  refine ⟨fun cy data hne hys => ?_, fun data hne hrows => ?_,
    fun data res hok => ?_⟩
  · unfold get_timeline
    rw [if_neg (by simp [hne]), hys]
    rfl
  · unfold get_geo
    rw [if_neg (by simp [hne]), if_pos (by simp [hrows])]
  · unfold get_reactions at hok
    split at hok
    · have h := Except.ok.inj hok
      subst h
      rfl
    · split at hok
      · cases hok
      · have h := Except.ok.inj hok
        subst h
        rfl

/-- Witness for the amended C3: a record whose year is out of range leaves the
timeline empty after filtering, and the query reports `no_data`. -/
theorem C3_amended_no_data_on_empty_filter_witness :
    get_timeline 2026 [⟨some (.str "18990101")⟩] none = ([], some "no_data") :=
  C3_amended_no_data_on_empty_filter.1 2026 [⟨some (.str "18990101")⟩]
    (by decide) (by decide)

/-- C4 counterexample: a successful 200 response whose non-empty result list
has no row carrying a `term` key makes `get_reactions` raise `KeyError` (the
renamed `Reaction` column does not exist in the DataFrame), so an exception
escapes the query's boundary instead of an error value. -/
theorem C4_counterexample_reactions_raise_keyerror :
    get_reactions [⟨none, some 5⟩] none = .error "KeyError: Reaction" := by
  decide

/-- C4 amended: `get_timeline` and `get_geo` always return a `(rows, error)`
pair, and `get_reactions` does too except in exactly one situation — the
upstream call succeeded (`err = none`) with a non-empty result list in which
no aggregate row has a `term` field, where the pandas column access raises
`KeyError`.  Rows individually missing `term` or `count` (alongside at least
one row with `term`) and malformed dates never cause an exception. -/
theorem C4_amended_never_raises_except_missing_term_column :
    (∀ (cy : Int) (data : List EventRecord) (err : Option String),
        ∃ out, get_timeline cy data err = out) ∧
    (∀ (data : List AggRow) (err : Option String),
        ∃ out, get_geo data err = out) ∧
    (∀ (data : List AggRow) (err : Option String),
        (get_reactions data err).isOk = false ↔
          err = none ∧ data ≠ [] ∧ ∀ r ∈ data, r.term = none) := by
  refine ⟨fun cy data err => ⟨_, rfl⟩, fun data err => ⟨_, rfl⟩,
    fun data err => ?_⟩
  unfold get_reactions
  split
  · rename_i hcond
    refine iff_of_false (by simp [Except.isOk, Except.toBool]) ?_
    rintro ⟨rfl, h2, -⟩
    simp at hcond
    exact h2 hcond
  · split
    · rename_i hcond hall
      simp only [Bool.or_eq_true, not_or] at hcond
      refine iff_of_true (by simp [Except.isOk, Except.toBool]) ?_
      refine ⟨?_, ?_, ?_⟩
      · cases err with
        | none => rfl
        | some e => exact absurd rfl hcond.1
      · intro hdata
        subst hdata
        exact hcond.2 rfl
      · intro r hr
        simpa using List.all_eq_true.mp hall r hr
    · rename_i hcond hall
      refine iff_of_false (by simp [Except.isOk, Except.toBool]) ?_
      rintro ⟨-, -, h3⟩
      exact hall (List.all_eq_true.mpr fun r hr => by simp [h3 r hr])

/-- Witness for the amended C4: the `KeyError` situation is reachable at a
concrete input (every row lacks `term`), and there the result is not `ok`. -/
theorem C4_amended_never_raises_except_missing_term_column_witness :
    (get_reactions [(⟨none, some 5⟩ : AggRow)] none).isOk = false :=
  (C4_amended_never_raises_except_missing_term_column.2.2
      [⟨none, some 5⟩] none).mpr ⟨rfl, by decide, by decide⟩

/-- C5 counterexample: `_call` maps a 400 response — which is not 5xx-class —
to `server_error_400`, so `server_error_<code>` is not reserved to the 5xx
status class. -/
theorem C5_counterexample_400_maps_to_server_error :
    _call (fun _ => Attempt.resp 400 (Body.json ([] : List AggRow))) =
      ([], some "server_error_400") ∧
    ¬ (500 ≤ 400 ∧ 400 ≤ 599) :=
  ⟨by decide, by decide⟩

/-- C5 amended: `_call` returns `(resultList, none)` on a 200 response with
parseable JSON (and `network_error` on a 200 body that fails JSON decoding),
`(emptyList, "no_data")` exactly on 404, `(emptyList, "server_error_<code>")`
on EVERY other final status code — not only the 5xx class — after the
session's retries are exhausted, and `(emptyList, "network_error: <detail>")`
on transport failure; a 503 on every attempt resolves to `server_error_503`,
not an exception. -/
theorem C5_amended_call_error_mapping :
    (∀ rs : List AggRow, callStep (.resp 200 (.json rs)) = (rs, none)) ∧
    (∀ d : String, callStep (.resp 200 (.malformed d) : Attempt AggRow) =
        ([], some ("network_error: " ++ d))) ∧
    (∀ b : Body AggRow, callStep (.resp 404 b) = ([], some "no_data")) ∧
    (∀ (s : Nat) (b : Body AggRow), s ≠ 200 → s ≠ 404 →
        callStep (.resp s b) = ([], some ("server_error_" ++ toString s))) ∧
    (∀ d : String, callStep (.netfail d : Attempt AggRow) =
        ([], some ("network_error: " ++ d))) ∧
    (∀ env : Nat → Attempt AggRow, _call env = callStep (sessionGet env)) ∧
    (∀ b : Body AggRow,
        _call (fun _ => .resp 503 b) = ([], some "server_error_503")) := by
  refine ⟨fun rs => rfl, fun d => rfl, fun b => rfl, ?_, fun d => rfl,
    fun env => rfl, fun b => rfl⟩
  intro s b h200 h404
  show respResult s b = ([], some ("server_error_" ++ toString s))
  unfold respResult
  rw [if_neg (by simpa using h200), if_neg (by simpa using h404)]

/-- Witness for the amended C5: the non-200/404 clause applied at status 400. -/
theorem C5_amended_call_error_mapping_witness :
    callStep (.resp 400 (Body.json ([] : List AggRow))) =
      ([], some ("server_error_" ++ toString 400)) :=
  C5_amended_call_error_mapping.2.2.2.1 400 (Body.json [])
    (by decide) (by decide)

/-- C6: a raw event record is counted toward a year bucket by `get_timeline`
iff its `receivedate` is an 8-character string whose first 4 characters parse
as an integer year in `[2000, current year]`; wrong-length, unparseable or
out-of-range dates are silently skipped with no partial-failure indication.
Concretely: `"20240315"` buckets into 2024, `"1999"` (wrong length) and
`"18990101"` (year out of range) are dropped. -/
theorem C6_timeline_bucketing_iff :
    (∀ (cy y : Int) (r : EventRecord),
        survYear cy r = some y ↔
          ∃ s : String, r.receivedate = some (.str s) ∧ s.length = 8 ∧
            pyIntParse (s.take 4) = some y ∧ 2000 ≤ y ∧ y ≤ cy) ∧
    survYear 2026 ⟨some (.str "20240315")⟩ = some 2024 ∧
    survYear 2026 ⟨some (.str "1999")⟩ = none ∧
    survYear 2026 ⟨some (.str "18990101")⟩ = none ∧
    (∀ (cy : Int) (data : List EventRecord) (err : Option String),
        err.isSome = false → data ≠ [] →
        get_timeline cy data err =
          timelineRows (data.filterMap (survYear cy))) := by
  refine ⟨fun cy y r => survYear_eq_some_iff cy y r, by decide, by decide,
    by decide, fun cy data err he hne => ?_⟩
  unfold get_timeline
  rw [if_neg (by simp [he, hne])]

/-- Witness for C6: the characterization applied to the `"20240315"` record. -/
theorem C6_timeline_bucketing_iff_witness :
    ∃ s : String,
      (⟨some (.str "20240315")⟩ : EventRecord).receivedate = some (.str s) ∧
      s.length = 8 ∧ pyIntParse (s.take 4) = some 2024 ∧
      (2000 : Int) ≤ 2024 ∧ (2024 : Int) ≤ 2026 :=
  (C6_timeline_bucketing_iff.1 2026 2024 ⟨some (.str "20240315")⟩).mp
    (by decide)

/-- C7: the timeline rows have strictly increasing years (hence no
duplicates), each year lies in `[2000, current year]`, and each row's count is
the number of surviving records bucketed into that year. -/
theorem C7_timeline_rows_strictly_increasing_in_range
    (cy : Int) (data : List EventRecord) (err : Option String) :
    (get_timeline cy data err).1.Pairwise (fun p q => p.1 < q.1) ∧
    ∀ p ∈ (get_timeline cy data err).1,
      (2000 ≤ p.1 ∧ p.1 ≤ cy) ∧
      p.2 = (data.filterMap (survYear cy)).count p.1 := by
  unfold get_timeline
  split
  · exact ⟨by simp, by simp⟩
  · constructor
    · exact timelineRows_pairwise _
    · intro p hp
      obtain ⟨hmem, hcount⟩ := timelineRows_mem hp
      obtain ⟨r, hr, hsome⟩ := List.mem_filterMap.mp hmem
      exact ⟨survYear_range hsome, hcount⟩

/-- Witness for C7: in a concrete three-record response, the 2024 bucket is in
range and counts exactly the two surviving 2024 records. -/
theorem C7_timeline_rows_strictly_increasing_in_range_witness :
    ((2000 : Int) ≤ 2024 ∧ (2024 : Int) ≤ 2026) ∧
    (2 : Nat) = (([⟨some (.str "20240315")⟩, ⟨some (.str "20230101")⟩,
        ⟨some (.str "20240606")⟩] : List EventRecord).filterMap
          (survYear 2026)).count 2024 :=
  (C7_timeline_rows_strictly_increasing_in_range 2026
      [⟨some (.str "20240315")⟩, ⟨some (.str "20230101")⟩,
       ⟨some (.str "20240606")⟩] none).2 (2024, 2) (by decide)

/-- C8: `get_geo` drops every aggregate row whose uppercased 2-letter code has
no entry in `ISO2_COORDS` (and only those); every returned row carries the
latitude/longitude from that table, and each row's display name comes from
`ISO2_TO_NAME`, falling back to the ISO code itself when no display name is
known. -/
theorem C8_geo_rows_coords_and_name
    (data : List AggRow) (err : Option String) :
    (∀ r : AggRow,
        geoRow r = none ↔
          tableGet ISO2_COORDS (pyUpper (r.term.getD "")) = none) ∧
    (∀ row ∈ (get_geo data err).1,
        tableGet ISO2_COORDS row.country = some (row.lat, row.lon) ∧
        row.name = (tableGet ISO2_TO_NAME row.country).getD row.country) ∧
    (err = none → data ≠ [] →
        (get_geo data err).1.length =
          data.countP (fun r => (geoRow r).isSome)) := by
  refine ⟨geoRow_none_iff, fun row hrow => ?_, fun herr hne => ?_⟩
  · unfold get_geo at hrow
    split at hrow
    · simp at hrow
    · split at hrow
      · simp at hrow
      · obtain ⟨r, hr, hsome⟩ := List.mem_filterMap.mp hrow
        obtain ⟨h1, h2, -, -⟩ := geoRow_some_spec hsome
        exact ⟨h1, h2⟩
  · subst herr
    have hlen : (data.filterMap geoRow).length =
        data.countP (fun r => (geoRow r).isSome) :=
      length_filterMap_eq_countP geoRow data
    unfold get_geo
    rw [if_neg (by simp [hne])]
    split
    · rename_i hempty
      have hnil : data.filterMap geoRow = [] := by simpa using hempty
      rw [hnil] at hlen
      simpa using hlen
    · simpa using hlen

/-- Witness for C8: a concrete response with a lowercase `"us"` and an
unmapped `"ZZ"`; the returned row's coordinates and name come from the static
tables. -/
theorem C8_geo_rows_coords_and_name_witness :
    tableGet ISO2_COORDS "US" = some (3709, -9571) ∧
    "United States" = (tableGet ISO2_TO_NAME "US").getD "US" :=
  (C8_geo_rows_coords_and_name [⟨some "us", some 7⟩, ⟨some "ZZ", some 3⟩]
      none).2.1 ⟨"US", "United States", 7, 3709, -9571⟩ (by decide)

/-- C9: a second invocation of a cached query within the 10-minute
(600-second) validity window returns the previously computed result verbatim —
including any recorded error value — without a fresh computation (no new
network request); after the window a new call computes afresh.  `cacheQuery`
models streamlit's `st.cache_data(ttl=600)` from the spec, since the
decorator's implementation is not part of this repository. -/
theorem C9_cache_hit_within_ttl (α : Type) (fetch : Unit → α) (t0 t1 t2 : Nat)
    (h01 : t0 ≤ t1) (h1 : t1 < t0 + 600) (h2 : t0 + 600 ≤ t2) :
    (cacheQuery 600 fetch t0 ⟨none⟩).2.2 = true ∧
    cacheQuery 600 fetch t1 (cacheQuery 600 fetch t0 ⟨none⟩).2.1 =
      ((cacheQuery 600 fetch t0 ⟨none⟩).1,
        (cacheQuery 600 fetch t0 ⟨none⟩).2.1, false) ∧
    (cacheQuery 600 fetch t2 (cacheQuery 600 fetch t0 ⟨none⟩).2.1).2.2 =
      true := by
  have hfirst : cacheQuery 600 fetch t0 (⟨none⟩ : TtlCache α) =
      (fetch (), ⟨some (t0, fetch ())⟩, true) := rfl
  rw [hfirst]
  have hl1 : cacheLookup 600 t1 (⟨some (t0, fetch ())⟩ : TtlCache α) =
      some (fetch ()) := by
    show (if t1 < t0 + 600 then some (fetch ()) else none) = some (fetch ())
    rw [if_pos h1]
  have hl2 : cacheLookup 600 t2 (⟨some (t0, fetch ())⟩ : TtlCache α) =
      none := by
    show (if t2 < t0 + 600 then some (fetch ()) else none) = none
    rw [if_neg (by omega)]
  refine ⟨rfl, ?_, ?_⟩
  · show cacheQuery 600 fetch t1 ⟨some (t0, fetch ())⟩ =
      (fetch (), ⟨some (t0, fetch ())⟩, false)
    unfold cacheQuery
    rw [hl1]
  · show (cacheQuery 600 fetch t2 ⟨some (t0, fetch ())⟩).2.2 = true
    unfold cacheQuery
    rw [hl2]

/-- Witness for C9: an error result (`no_data`) computed at time 0 is served
from the cache at time 599; at time 600 a fresh computation happens. -/
theorem C9_cache_hit_within_ttl_witness :
    (cacheQuery 600 (fun _ => (([] : List ReactionRow), some "no_data")) 0
        ⟨none⟩).2.2 = true ∧
    (cacheQuery 600 (fun _ => (([] : List ReactionRow), some "no_data")) 600
        (cacheQuery 600 (fun _ => (([] : List ReactionRow), some "no_data"))
          0 ⟨none⟩).2.1).2.2 = true :=
  have h := C9_cache_hit_within_ttl (List ReactionRow × Option String)
    (fun _ => ([], some "no_data")) 0 599 600
    (by decide) (by decide) (by decide)
  ⟨h.1, h.2.2⟩

/-- C10: `get_geo` uppercases each aggregate row's country code before the
table lookups, so its output is invariant under letter-case changes in the
incoming codes: two responses whose rows agree up to case of `term` (with
equal counts) produce identical results; in particular `"us"` and `"Us"`
yield exactly the rows of `"US"`. -/
theorem C10_geo_output_case_invariant :
    (∀ (d1 d2 : List AggRow) (err : Option String),
        List.Forall₂ (fun a b =>
            pyUpper (a.term.getD "") = pyUpper (b.term.getD "") ∧
            a.count = b.count) d1 d2 →
        get_geo d1 err = get_geo d2 err) ∧
    get_geo [⟨some "us", some 7⟩] none = get_geo [⟨some "US", some 7⟩] none ∧
    get_geo [⟨some "Us", some 7⟩] none = get_geo [⟨some "US", some 7⟩] none := by
  have hrow : ∀ a b : AggRow,
      pyUpper (a.term.getD "") = pyUpper (b.term.getD "") →
      a.count = b.count → geoRow a = geoRow b := by
    intro a b h1 h2
    unfold geoRow
    rw [h1, h2]
  have hmain : ∀ (d1 d2 : List AggRow),
      List.Forall₂ (fun a b =>
          pyUpper (a.term.getD "") = pyUpper (b.term.getD "") ∧
          a.count = b.count) d1 d2 →
      d1.filterMap geoRow = d2.filterMap geoRow ∧ (d1 = [] ↔ d2 = []) := by
    intro d1 d2 h
    induction h with
    | nil => exact ⟨rfl, Iff.rfl⟩
    | cons hab htl ih =>
      refine ⟨?_, by simp⟩
      rw [List.filterMap_cons, List.filterMap_cons,
        hrow _ _ hab.1 hab.2, ih.1]
  refine ⟨fun d1 d2 err h => ?_, by decide, by decide⟩
  obtain ⟨hfm, hiff⟩ := hmain d1 d2 h
  have hemp : d1.isEmpty = d2.isEmpty := by
    cases d1 <;> cases d2 <;> simp_all
  unfold get_geo
  rw [hemp, hfm]

/-- Witness for C10: the invariance applied to a lowercase `"gb"` response. -/
theorem C10_geo_output_case_invariant_witness :
    get_geo [⟨some "gb", some 3⟩] none = get_geo [⟨some "GB", some 3⟩] none :=
  C10_geo_output_case_invariant.1 [⟨some "gb", some 3⟩] [⟨some "GB", some 3⟩]
    none (List.Forall₂.cons ⟨by decide, rfl⟩ List.Forall₂.nil)
